import Mathlib

/-!
Shallow embedding of the Hospital Management API backend
(`src/main.py`, `src/schemas.py`) for verifying the natural-language
specification's claims.

The document store adapter (`database.py`: `db`, `create_document`,
`get_documents`) is imported by `main.py` but is not part of the provided
sources; those operations are modelled from the specification (section 4.1)
and are marked `Modelled from the spec:` in their doc comments.  External
library behaviour (pymongo `ObjectId`, `find_one`, `count_documents`;
pydantic field validation; FastAPI's pre-handler 422 validation and
`HTTPException`) is embedded concretely following how `main.py` and
`schemas.py` use it.
-/

set_option autoImplicit false
set_option maxRecDepth 8192

namespace Hospital

/-- A scalar value stored in a document field.  `oid` is the store-native
identifier (`bson.ObjectId`, abstracted by the natural number it encodes),
`dt` is a `datetime` (abstracted by an integer timestamp), `null` is
Python's `None`. -/
inductive Value where
  | oid (n : Nat)
  | str (s : String)
  | dt (t : Int)
  | int (i : Int)
  | null
  deriving DecidableEq, Repr

/-- A stored document: a Python dict of field name to value, embedded as the
ordered association list of its entries (Python dicts preserve insertion
order and have pairwise-distinct keys; arbitrary lists are allowed here and
distinctness is imposed where a claim needs it). -/
abbrev Doc := List (String × Value)

/-- The keys of a document, in order. -/
def keys (d : Doc) : List String := d.map Prod.fst

/-- Whether a value is a `datetime` (`isinstance(v, datetime)` in
`serialize_doc`, main.py line 47). -/
def isDt : Value → Bool
  | .dt _ => true
  | _ => false

/-- The hex digit character for a value below 16 (lowercase, as in
`str(ObjectId)`). -/
def hexDigitChar (n : Nat) : Char :=
  if n < 10 then Char.ofNat (48 + n) else Char.ofNat (87 + n)

/-- `str(ObjectId)`: the 24-character lowercase hex form of the identifier. -/
def hex24 (n : Nat) : String :=
  String.mk ((List.range 24).map (fun i => hexDigitChar (n / 16 ^ (23 - i) % 16)))

/-- The numeric value of a hex digit character, `none` when the character is
not a hex digit. -/
def hexVal (c : Char) : Option Nat :=
  if '0' ≤ c ∧ c ≤ '9' then some (c.toNat - 48)
  else if 'a' ≤ c ∧ c ≤ 'f' then some (c.toNat - 87)
  else if 'A' ≤ c ∧ c ≤ 'F' then some (c.toNat - 55)
  else none

/-- `ObjectId(s)` (bson): succeeds exactly on a 24-character hex string,
returning the identifier it encodes; any other string raises, embedded as
`none`. -/
def parseObjectId (s : String) : Option Nat :=
  if s.length = 24 ∧ s.data.all (fun c => (hexVal c).isSome) then
    some (s.data.foldl (fun a c => a * 16 + ((hexVal c).getD 0)) 0)
  else none

/-- Python `str(v)` as applied to document values (in `serialize_doc` it is
only ever applied to the `_id` value).  `str` of a datetime and of `None`
are abstract textual stand-ins for the external library's rendering. -/
def pyStr : Value → String
  | .oid n => hex24 n
  | .str s => s
  | .dt t => "datetime(" ++ toString t ++ ")"
  | .int i => toString i
  | .null => "None"

/-- `datetime.isoformat()`: the textual ISO 8601 date-time representation,
an abstract injective stand-in for the external library's rendering. -/
def isoformat (t : Int) : String := "iso(" ++ toString t ++ ")"

/-- Python dict assignment `out[k] = v`: overwrites in place when the key is
present (keeping its position), appends otherwise. -/
def dinsert (l : Doc) (k : String) (v : Value) : Doc :=
  match l with
  | [] => [(k, v)]
  | (k', v') :: rest => if k' = k then (k, v) :: rest else (k', v') :: dinsert rest k v

/-- One iteration of the loop body of `serialize_doc` (main.py lines 44-50):
`_id` is written to `out` under the key `id` as `str(v)`; a datetime value is
written under its own key as its isoformat; anything else is copied. -/
def serStep (out : Doc) (kv : String × Value) : Doc :=
  if kv.1 = "_id" then dinsert out "id" (Value.str (pyStr kv.2))
  else match kv.2 with
    | .dt t => dinsert out kv.1 (Value.str (isoformat t))
    | v => dinsert out kv.1 v

/-- `serialize_doc` (main.py lines 42-51): builds `out` from the empty dict
by the loop over `doc.items()`. -/
def serialize_doc (doc : Doc) : Doc := doc.foldl serStep []

/-- The entrywise transform that `serialize_doc` amounts to when no key
collision occurs: `_id` renamed to `id` with value `str(v)`, datetimes to
their isoformat, all else unchanged. -/
def serMap : String × Value → String × Value
  | (k, v) =>
    if k = "_id" then ("id", Value.str (pyStr v))
    else match v with
      | .dt t => (k, Value.str (isoformat t))
      | v' => (k, v')

/-- The well-formedness invariant every `serialize_doc` output enjoys:
distinct keys, no `_id` key, no datetime value. -/
def goodOut (l : Doc) : Prop :=
  (keys l).Nodup ∧ "_id" ∉ keys l ∧ ∀ kv ∈ l, isDt kv.2 = false

/-! ### Record schemas (`src/schemas.py`) -/

/-- A validated `Patient` record (schemas.py lines 18-32): `first_name` and
`last_name` required, everything else optional. -/
structure Patient where
  first_name : String
  last_name : String
  email : Option String
  phone : Option String
  date_of_birth : Option String
  gender : Option String
  address : Option String
  insurance_provider : Option String
  insurance_number : Option String
  notes : Option String
  deriving DecidableEq, Repr

/-- A validated `Doctor` record (schemas.py lines 35-45): `first_name`,
`last_name` and `department` required. -/
structure Doctor where
  first_name : String
  last_name : String
  email : Option String
  phone : Option String
  department : String
  title : Option String
  deriving DecidableEq, Repr

/-- A validated `Appointment` record (schemas.py lines 48-58):
`patient_id`, `doctor_id`, `start_time` required; `duration_minutes`
defaults to 30 and is constrained to [5, 240]; `status` defaults to
"scheduled". -/
structure Appointment where
  patient_id : String
  doctor_id : String
  start_time : Int
  duration_minutes : Int
  reason : Option String
  status : String
  deriving DecidableEq, Repr

/-- A raw `Patient` request body before validation: `none` on a required
field means the field is absent from the JSON body; optional fields absent
or null are both `none`. -/
structure PatientInput where
  first_name : Option String
  last_name : Option String
  email : Option String
  phone : Option String
  date_of_birth : Option String
  gender : Option String
  address : Option String
  insurance_provider : Option String
  insurance_number : Option String
  notes : Option String
  deriving DecidableEq, Repr

/-- A raw `Doctor` request body before validation. -/
structure DoctorInput where
  first_name : Option String
  last_name : Option String
  email : Option String
  phone : Option String
  department : Option String
  title : Option String
  deriving DecidableEq, Repr

/-- A raw `Appointment` request body before validation. -/
structure AppointmentInput where
  patient_id : Option String
  doctor_id : Option String
  start_time : Option Int
  duration_minutes : Option Int
  reason : Option String
  status : Option String
  deriving DecidableEq, Repr

/-- Well-formedness of an e-mail address (pydantic `EmailStr`, an external
validator): abstracted as a concrete executable check; no claim depends on
its details. -/
def emailOk (s : String) : Bool := s.contains '@'

/-- Pydantic validation of a `Patient` body against schemas.py lines 18-32:
required fields must be present, `email` must be well-formed when present.
(Pydantic aggregates all field errors into one 422 response; the model
reports the first, which is equivalent for accept/reject purposes.) -/
def validatePatient (i : PatientInput) : Except String Patient :=
  match i.first_name, i.last_name with
  | none, _ => .error "first_name: field required"
  | _, none => .error "last_name: field required"
  | some fn, some ln =>
    if i.email.all emailOk then
      .ok ⟨fn, ln, i.email, i.phone, i.date_of_birth, i.gender, i.address,
           i.insurance_provider, i.insurance_number, i.notes⟩
    else .error "email: value is not a valid email address"

/-- Pydantic validation of a `Doctor` body against schemas.py lines 35-45. -/
def validateDoctor (i : DoctorInput) : Except String Doctor :=
  match i.first_name, i.last_name, i.department with
  | none, _, _ => .error "first_name: field required"
  | _, none, _ => .error "last_name: field required"
  | _, _, none => .error "department: field required"
  | some fn, some ln, some dep =>
    if i.email.all emailOk then
      .ok ⟨fn, ln, i.email, i.phone, dep, i.title⟩
    else .error "email: value is not a valid email address"

/-- Pydantic validation of an `Appointment` body against schemas.py lines
48-58: `patient_id`, `doctor_id`, `start_time` required;
`duration_minutes` defaults to 30 and must satisfy `ge=5, le=240`;
`status` defaults to "scheduled". -/
def validateAppointment (i : AppointmentInput) : Except String Appointment :=
  match i.patient_id, i.doctor_id, i.start_time with
  | none, _, _ => .error "patient_id: field required"
  | _, none, _ => .error "doctor_id: field required"
  | _, _, none => .error "start_time: field required"
  | some pid, some did, some st =>
    let dm := i.duration_minutes.getD 30
    if dm < 5 then
      .error "duration_minutes: ensure this value is greater than or equal to 5"
    else if 240 < dm then
      .error "duration_minutes: ensure this value is less than or equal to 240"
    else
      .ok ⟨pid, did, st, dm, i.reason, i.status.getD "scheduled"⟩

/-- Dump of an optional string field to its stored value (`None` → null). -/
def optVal : Option String → Value
  | none => .null
  | some s => .str s

/-- The stored field list of a `Patient` payload, in declaration order
(pydantic `.dict()` as consumed by the adapter's insert). -/
def patientFields (p : Patient) : Doc :=
  [("first_name", .str p.first_name), ("last_name", .str p.last_name),
   ("email", optVal p.email), ("phone", optVal p.phone),
   ("date_of_birth", optVal p.date_of_birth), ("gender", optVal p.gender),
   ("address", optVal p.address), ("insurance_provider", optVal p.insurance_provider),
   ("insurance_number", optVal p.insurance_number), ("notes", optVal p.notes)]

/-- The stored field list of a `Doctor` payload, in declaration order. -/
def doctorFields (q : Doctor) : Doc :=
  [("first_name", .str q.first_name), ("last_name", .str q.last_name),
   ("email", optVal q.email), ("phone", optVal q.phone),
   ("department", .str q.department), ("title", optVal q.title)]

/-- The stored field list of an `Appointment` payload, in declaration
order. -/
def apptFields (a : Appointment) : Doc :=
  [("patient_id", .str a.patient_id), ("doctor_id", .str a.doctor_id),
   ("start_time", .dt a.start_time), ("duration_minutes", .int a.duration_minutes),
   ("reason", optVal a.reason), ("status", .str a.status)]

/-! ### Document store (`database.py`, modelled from the spec) -/

/-- The connected store: one document list per collection, in insertion
order, plus the counter generating fresh store-native identifiers
(identifiers are unique and never reused, spec section 3). -/
structure DB where
  patient : List Doc
  doctor : List Doc
  appointment : List Doc
  nextId : Nat
  deriving DecidableEq, Repr

/-- The documents of a named collection. -/
def collOf (d : DB) (coll : String) : List Doc :=
  if coll = "patient" then d.patient
  else if coll = "doctor" then d.doctor
  else if coll = "appointment" then d.appointment
  else []

/-- Modelled from the spec: `create_document` of the absent `database.py`
(spec section 4.1 `insert`): serializes the record to the store's document
form, assigns it a new unique identifier, persists it, and returns the
identifier as a string. -/
def create_document (coll : String) (fields : Doc) (d : DB) : String × DB :=
  let doc : Doc := ("_id", Value.oid d.nextId) :: fields
  let d' : DB :=
    if coll = "patient" then
      { d with patient := d.patient ++ [doc], nextId := d.nextId + 1 }
    else if coll = "doctor" then
      { d with doctor := d.doctor ++ [doc], nextId := d.nextId + 1 }
    else if coll = "appointment" then
      { d with appointment := d.appointment ++ [doc], nextId := d.nextId + 1 }
    else { d with nextId := d.nextId + 1 }
  (hex24 d.nextId, d')

/-- Modelled from the spec: `get_documents` of the absent `database.py`
(spec section 4.1 `find` with the empty filter used at every call site):
returns up to `limit` documents of the collection in store-default
(insertion) order. -/
def get_documents (coll : String) (limit : Nat) (d : DB) : List Doc :=
  (collOf d coll).take limit

/-- pymongo `find_one({"_id": oid})` truthiness: whether some document of
the collection has that `_id`. -/
def findOne (coll : List Doc) (n : Nat) : Bool :=
  (coll.find? (fun doc => List.lookup "_id" doc == some (Value.oid n))).isSome

/-! ### Route layer (`src/main.py`) -/

/-- A FastAPI `HTTPException`: response status code and detail message. -/
structure HTTPErr where
  code : Nat
  detail : String
  deriving DecidableEq, Repr

/-- An exception raised inside the referential-check `try` block of
`create_appointment`: either the deliberately raised `HTTPException`, or
the `ObjectId` conversion error. -/
inductive PyExn where
  | httpExn (e : HTTPErr)
  | valueErr
  deriving DecidableEq, Repr

/-- How the `try` body terminates. -/
inductive TryResult where
  | completed
  | raised (e : PyExn)
  deriving DecidableEq, Repr

/-- The body of the `try` block of `create_appointment` (main.py lines
124-132): when `ObjectId` is available, the two identifier strings are
converted (conversion failure raises) and looked up, and a missing patient
or doctor raises `HTTPException(404)`; when `ObjectId` is unavailable both
existence flags are the constant `True`. -/
def tryBody (oidAvail : Bool) (d : DB) (pid did : String) : TryResult :=
  if oidAvail then
    match parseObjectId pid with
    | none => .raised .valueErr
    | some pOid =>
      let patient_exists := findOne d.patient pOid
      match parseObjectId did with
      | none => .raised .valueErr
      | some dOid =>
        let doctor_exists := findOne d.doctor dOid
        if !patient_exists then .raised (.httpExn ⟨404, "Patient not found"⟩)
        else if !doctor_exists then .raised (.httpExn ⟨404, "Doctor not found"⟩)
        else .completed
  else .completed

/-- `POST /appointments` handler `create_appointment` (main.py lines
117-138): 500 when `db` is `None`; otherwise the referential `try` block
runs and — because `except Exception: pass` (lines 133-135) catches every
exception raised in it, the two `HTTPException(404)` raises included — the
insert is performed whatever the block's outcome. -/
def create_appointment (oidAvail : Bool) (p : Appointment) (db : Option DB) :
    Except HTTPErr String × Option DB :=
  match db with
  | none => (.error ⟨500, "Database not available"⟩, none)
  | some d =>
    match tryBody oidAvail d p.patient_id p.doctor_id with
    | .completed =>
      let r := create_document "appointment" (apptFields p) d
      (.ok r.1, some r.2)
    | .raised _ =>
      -- `except Exception: pass`: the exception is discarded, control continues
      let r := create_document "appointment" (apptFields p) d
      (.ok r.1, some r.2)

/-- `POST /patients` handler `create_patient` (main.py lines 91-94): insert
and return the new identifier.  Modelled from the spec: with no connection
the adapter's insert fails with `StoreUnavailable`, a server error. -/
def create_patient (p : Patient) (db : Option DB) : Except HTTPErr String × Option DB :=
  match db with
  | none => (.error ⟨500, "StoreUnavailable"⟩, none)
  | some d =>
    let r := create_document "patient" (patientFields p) d
    (.ok r.1, some r.2)

/-- `POST /doctors` handler `create_doctor` (main.py lines 104-107). -/
def create_doctor (q : Doctor) (db : Option DB) : Except HTTPErr String × Option DB :=
  match db with
  | none => (.error ⟨500, "StoreUnavailable"⟩, none)
  | some d =>
    let r := create_document "doctor" (doctorFields q) d
    (.ok r.1, some r.2)

/-- `GET /patients` handler `list_patients` (main.py lines 97-100), given a
connected store: fetch up to `limit` documents and serialize each. -/
def list_patients (limit : Nat) (d : DB) : List Doc :=
  (get_documents "patient" limit d).map serialize_doc

/-- `GET /doctors` handler `list_doctors` (main.py lines 110-113). -/
def list_doctors (limit : Nat) (d : DB) : List Doc :=
  (get_documents "doctor" limit d).map serialize_doc

/-- `GET /appointments` handler `list_appointments` (main.py lines
141-144). -/
def list_appointments (limit : Nat) (d : DB) : List Doc :=
  (get_documents "appointment" limit d).map serialize_doc

/-- `GET /stats` handler `get_stats` (main.py lines 147-158): 500 when `db`
is `None`; otherwise the three `count_documents` calls run — `fault` is
`some msg` when the underlying store raises an error rendering as `msg`, in
which case the handler returns 500 with `detail=str(e)`, the message in
full. -/
def get_stats (db : Option DB) (fault : Option String) :
    Except HTTPErr (Nat × Nat × Nat) :=
  match db with
  | none => .error ⟨500, "Database not available"⟩
  | some d =>
    match fault with
    | some msg => .error ⟨500, msg⟩
    | none => .ok (d.patient.length, d.doctor.length, d.appointment.length)

/-- The truncation this codebase uses when it does truncate a diagnostic
message for display (`str(e)[:80]`, main.py lines 79 and 83). -/
def truncate80 (s : String) : String := s.take 80

/-- FastAPI request pipeline for `POST /patients`: the body is validated
against the schema before the handler runs; a validation failure is a 422
response and the handler (hence the insert) is never invoked. -/
def post_patient (i : PatientInput) (db : Option DB) :
    Except HTTPErr String × Option DB :=
  match validatePatient i with
  | .error e => (.error ⟨422, e⟩, db)
  | .ok p => create_patient p db

/-- FastAPI request pipeline for `POST /doctors`. -/
def post_doctor (i : DoctorInput) (db : Option DB) :
    Except HTTPErr String × Option DB :=
  match validateDoctor i with
  | .error e => (.error ⟨422, e⟩, db)
  | .ok q => create_doctor q db

/-- FastAPI request pipeline for `POST /appointments`. -/
def post_appointment (oidAvail : Bool) (i : AppointmentInput) (db : Option DB) :
    Except HTTPErr String × Option DB :=
  match validateAppointment i with
  | .error e => (.error ⟨422, e⟩, db)
  | .ok a => create_appointment oidAvail a db

/-! ### Lemmas about `dinsert` and `serialize_doc` -/

theorem keys_append (a b : Doc) : keys (a ++ b) = keys a ++ keys b :=
  List.map_append _ a b

theorem dinsert_of_not_mem {l : Doc} {k : String} (v : Value) (h : k ∉ keys l) :
    dinsert l k v = l ++ [(k, v)] := by
  induction l with
  | nil => rfl
  | cons kv rest ih =>
    obtain ⟨k', v'⟩ := kv
    simp only [keys, List.map_cons, List.mem_cons, not_or] at h
    have hne : ¬ (k' = k) := fun hh => h.1 hh.symm
    simp only [dinsert, if_neg hne, List.cons_append, List.cons.injEq, true_and]
    exact ih h.2

theorem mem_keys_dinsert {l : Doc} {k k' : String} {v : Value}
    (h : k' ∈ keys (dinsert l k v)) : k' ∈ keys l ∨ k' = k := by
  induction l with
  | nil =>
    simp only [dinsert, keys, List.map_cons, List.map_nil, List.mem_singleton] at h
    exact Or.inr h
  | cons kv rest ih =>
    obtain ⟨a, b⟩ := kv
    by_cases hak : a = k
    · simp only [dinsert, if_pos hak, keys, List.map_cons, List.mem_cons] at h
      rcases h with h | h
      · exact Or.inr h
      · exact Or.inl (by simp [keys, h])
    · simp only [dinsert, if_neg hak, keys, List.map_cons, List.mem_cons] at h
      rcases h with h | h
      · exact Or.inl (by simp [keys, h])
      · rcases ih h with h' | h'
        · exact Or.inl (by simp [keys]; right; simpa [keys] using h')
        · exact Or.inr h'

theorem nodup_keys_dinsert {l : Doc} (k : String) (v : Value)
    (h : (keys l).Nodup) : (keys (dinsert l k v)).Nodup := by
  induction l with
  | nil => simp [dinsert, keys]
  | cons kv rest ih =>
    obtain ⟨a, b⟩ := kv
    simp only [keys, List.map_cons, List.nodup_cons] at h
    by_cases hak : a = k
    · subst hak
      simpa [dinsert, keys, List.nodup_cons] using h
    · simp only [dinsert, if_neg hak, keys, List.map_cons, List.nodup_cons]
      refine ⟨fun hmem => ?_, ih h.2⟩
      rcases mem_keys_dinsert hmem with h' | h'
      · exact h.1 h'
      · exact hak h'

theorem mem_dinsert {l : Doc} {k : String} {v : Value} {kv : String × Value}
    (h : kv ∈ dinsert l k v) : kv ∈ l ∨ kv = (k, v) := by
  induction l with
  | nil =>
    simp only [dinsert, List.mem_singleton] at h
    exact Or.inr h
  | cons kv' rest ih =>
    obtain ⟨a, b⟩ := kv'
    by_cases hak : a = k
    · simp only [dinsert, if_pos hak, List.mem_cons] at h
      rcases h with h | h
      · exact Or.inr h
      · exact Or.inl (List.mem_cons_of_mem _ h)
    · simp only [dinsert, if_neg hak, List.mem_cons] at h
      rcases h with h | h
      · exact Or.inl (by simp [h])
      · rcases ih h with h' | h'
        · exact Or.inl (List.mem_cons_of_mem _ h')
        · exact Or.inr h'

theorem serMap_fst (k : String) (v : Value) :
    (serMap (k, v)).1 = if k = "_id" then "id" else k := by
  by_cases h : k = "_id" <;> cases v <;> simp [serMap, h]

theorem serMap_fst_ne (k : String) (v : Value) : (serMap (k, v)).1 ≠ "_id" := by
  rw [serMap_fst]
  by_cases h : k = "_id" <;> simp [h]

theorem serMap_snd_not_dt (k : String) (v : Value) :
    isDt (serMap (k, v)).2 = false := by
  by_cases h : k = "_id" <;> cases v <;> simp [serMap, h, isDt]

theorem serStep_eq_dinsert (out : Doc) (kv : String × Value) :
    serStep out kv = dinsert out (serMap kv).1 (serMap kv).2 := by
  obtain ⟨k, v⟩ := kv
  by_cases h : k = "_id" <;> cases v <;> simp [serStep, serMap, h]

theorem serMap_id_of_plain (k : String) (v : Value) (hk : k ≠ "_id")
    (hv : isDt v = false) : serMap (k, v) = (k, v) := by
  cases v <;> simp_all [serMap, isDt, hk]

theorem foldl_serStep_append (l : Doc) : ∀ acc : Doc,
    (keys (acc ++ l.map serMap)).Nodup →
    l.foldl serStep acc = acc ++ l.map serMap := by
  induction l with
  | nil => intro acc _; simp
  | cons kv rest ih =>
    intro acc hnd
    have hfresh : (serMap kv).1 ∉ keys acc := by
      intro hmem
      rw [List.map_cons, keys_append] at hnd
      have := (List.nodup_append.mp hnd).2.2
      exact this hmem (by simp [keys])
    have hstep : serStep acc kv = acc ++ [serMap kv] := by
      rw [serStep_eq_dinsert, dinsert_of_not_mem _ hfresh]
    rw [List.foldl_cons, hstep, ih (acc ++ [serMap kv]) (by simpa using hnd)]
    simp

theorem serialize_doc_eq_map (d : Doc) (h : (keys (d.map serMap)).Nodup) :
    serialize_doc d = d.map serMap := by
  have := foldl_serStep_append d [] (by simpa using h)
  simpa [serialize_doc] using this

theorem keys_map_serMap (d : Doc) :
    keys (d.map serMap) = (keys d).map (fun k => if k = "_id" then "id" else k) := by
  simp only [keys, List.map_map]
  refine List.map_congr_left ?_
  intro kv _
  obtain ⟨k, v⟩ := kv
  exact serMap_fst k v

theorem nodup_keys_map_serMap {d : Doc} (h1 : (keys d).Nodup)
    (h2 : "id" ∉ keys d) : (keys (d.map serMap)).Nodup := by
  rw [keys_map_serMap]
  refine h1.map_on ?_
  intro x hx y hy hxy
  by_cases hx' : x = "_id"
  · by_cases hy' : y = "_id"
    · rw [hx', hy']
    · rw [if_pos hx', if_neg hy'] at hxy
      exact absurd (by rwa [← hxy] at hy) h2
  · by_cases hy' : y = "_id"
    · rw [if_neg hx', if_pos hy'] at hxy
      exact absurd (by rwa [hxy] at hx) h2
    · rwa [if_neg hx', if_neg hy'] at hxy

/-- The entrywise description of `serialize_doc` on a collision-free
document: valid whenever keys are distinct and no `id` key is present. -/
theorem serialize_doc_map {d : Doc} (h1 : (keys d).Nodup) (h2 : "id" ∉ keys d) :
    serialize_doc d = d.map serMap :=
  serialize_doc_eq_map d (nodup_keys_map_serMap h1 h2)

theorem goodOut_serStep {acc : Doc} (kv : String × Value) (h : goodOut acc) :
    goodOut (serStep acc kv) := by
  obtain ⟨k, v⟩ := kv
  rw [serStep_eq_dinsert]
  refine ⟨nodup_keys_dinsert _ _ h.1, ?_, ?_⟩
  · intro hmem
    rcases mem_keys_dinsert hmem with h' | h'
    · exact h.2.1 h'
    · exact serMap_fst_ne k v h'.symm
  · intro kv' hkv'
    rcases mem_dinsert hkv' with h' | h'
    · exact h.2.2 kv' h'
    · rw [h']; exact serMap_snd_not_dt k v

theorem goodOut_foldl (l : Doc) : ∀ acc : Doc, goodOut acc →
    goodOut (l.foldl serStep acc) := by
  induction l with
  | nil => intro acc h; exact h
  | cons kv rest ih => intro acc h; exact ih _ (goodOut_serStep kv h)

theorem goodOut_serialize_doc (d : Doc) : goodOut (serialize_doc d) :=
  goodOut_foldl d [] ⟨List.nodup_nil, by simp [keys], by simp⟩

theorem map_serMap_of_plain {l : Doc} (hid : "_id" ∉ keys l)
    (hdt : ∀ kv ∈ l, isDt kv.2 = false) : l.map serMap = l := by
  have : ∀ kv ∈ l, serMap kv = kv := by
    intro kv hkv
    obtain ⟨k, v⟩ := kv
    refine serMap_id_of_plain k v (fun hk => hid ?_) (hdt _ hkv)
    rw [← hk]
    exact List.mem_map_of_mem Prod.fst hkv
  calc l.map serMap = l.map id := List.map_congr_left fun a ha => this a ha
    _ = l := List.map_id l

theorem serialize_doc_of_plain {l : Doc} (h : goodOut l) : serialize_doc l = l := by
  obtain ⟨h1, h2, h3⟩ := h
  have hmap := map_serMap_of_plain h2 h3
  rw [serialize_doc_eq_map l (by rwa [hmap]), hmap]

/-! ### Claim C3 -/

/-- C3 is false as stated: on a stored document that already carries an `id`
field alongside `_id`, the dict assignment `out["id"] = str(v)` collides with
the pass-through of the `id` entry — here the output is `{id: "y"}` and the
string form of the `_id` value is nowhere in it, so the `_id` entry was not
"renamed to id and converted to its string form". -/
theorem c3_id_collision_counterexample :
    serialize_doc [("_id", Value.oid 5), ("id", Value.str "y")] = [("id", Value.str "y")] ∧
    ("id", Value.str (pyStr (Value.oid 5))) ∉
      serialize_doc [("_id", Value.oid 5), ("id", Value.str "y")] := by
  refine ⟨rfl, ?_⟩
  decide

/-- C3 (amended): for every stored document whose keys are pairwise distinct
and that does not already contain an `id` field, `serialize_doc` produces the
mapping in which `_id` is renamed to `id` and converted to its string form,
every datetime-valued field is converted to its textual ISO date-time
representation, and every other field passes through with key and value
unchanged (the entrywise transform `serMap`). -/
theorem c3_serialize_shape (d : Doc) (h1 : (keys d).Nodup) (h2 : "id" ∉ keys d) :
    serialize_doc d = d.map serMap :=
  serialize_doc_map h1 h2

/-- C3 witness: the amended claim evaluated on a concrete document holding an
identifier, a datetime and a plain string field. -/
theorem c3_serialize_shape_witness :
    (keys [("_id", Value.oid 3), ("when", Value.dt 7), ("name", Value.str "bob")]).Nodup ∧
    "id" ∉ keys [("_id", Value.oid 3), ("when", Value.dt 7), ("name", Value.str "bob")] ∧
    serialize_doc [("_id", Value.oid 3), ("when", Value.dt 7), ("name", Value.str "bob")] =
      [("id", Value.str (hex24 3)), ("when", Value.str (isoformat 7)), ("name", Value.str "bob")] :=
  ⟨by decide, by decide,
   (c3_serialize_shape [("_id", Value.oid 3), ("when", Value.dt 7), ("name", Value.str "bob")]
      (by decide) (by decide)).trans rfl⟩

/-! ### Claim C10 -/

/-- C10: `serialize_doc` is idempotent — its output contains no `_id` key and
no datetime-valued field, so applying it again returns the output unchanged. -/
theorem c10_serialize_idempotent (d : Doc) :
    serialize_doc (serialize_doc d) = serialize_doc d ∧
    "_id" ∉ keys (serialize_doc d) ∧
    ∀ kv ∈ serialize_doc d, isDt kv.2 = false := by
  have hg := goodOut_serialize_doc d
  exact ⟨serialize_doc_of_plain hg, hg.2.1, hg.2.2⟩

/-! ### Claim C5 -/

/-- C5: with no store connection (`db is None`), POST /appointments and
GET /stats each fail with a 500 server error before any insert or count, and
no record is persisted (the returned state is the unchanged absent store). -/
theorem c5_store_unavailable (p : Appointment) (oidAvail : Bool) (fault : Option String) :
    create_appointment oidAvail p none = (.error ⟨500, "Database not available"⟩, none) ∧
    get_stats none fault = .error ⟨500, "Database not available"⟩ :=
  ⟨rfl, rfl⟩

/-! ### Claim C6 -/

/-- C6 is false as stated: a store error during GET /stats is returned with
`detail=str(e)` (main.py line 158), the full underlying message — here a
100-character message comes back whole, while truncation for display in this
codebase (`str(e)[:80]`, as in the /test route) would be a strictly shorter
string. -/
theorem c6_no_truncation_counterexample :
    get_stats (some ⟨[], [], [], 0⟩) (some (String.mk (List.replicate 100 'a'))) =
      .error ⟨500, String.mk (List.replicate 100 'a')⟩ ∧
    truncate80 (String.mk (List.replicate 100 'a')) ≠ String.mk (List.replicate 100 'a') := by
  refine ⟨rfl, ?_⟩
  decide

/-- C6 (amended): an underlying store error during GET /stats is translated
into a 500 server error whose diagnostic detail is the full underlying error
message, not a truncated form. -/
theorem c6_stats_error_full_message (d : DB) (msg : String) :
    get_stats (some d) (some msg) = .error ⟨500, msg⟩ :=
  rfl

/-! ### Claim C4 -/

/-- C4: for a body with the required fields present, appointment validation
accepts `duration_minutes` exactly on the inclusive range [5, 240] (the
accepted record carrying the given value), and an absent field defaults to
30. -/
theorem c4_duration_bounds (i : AppointmentInput)
    (hp : i.patient_id.isSome) (hd : i.doctor_id.isSome) (hs : i.start_time.isSome) :
    (∀ d : Int, i.duration_minutes = some d →
      ((∃ a, validateAppointment i = .ok a ∧ a.duration_minutes = d) ↔ (5 ≤ d ∧ d ≤ 240))) ∧
    (i.duration_minutes = none →
      ∃ a, validateAppointment i = .ok a ∧ a.duration_minutes = 30) := by
  obtain ⟨pid, hpid⟩ := Option.isSome_iff_exists.mp hp
  obtain ⟨did, hdid⟩ := Option.isSome_iff_exists.mp hd
  obtain ⟨st, hst⟩ := Option.isSome_iff_exists.mp hs
  constructor
  · intro d hdur
    simp only [validateAppointment, hpid, hdid, hst, hdur, Option.getD_some]
    constructor
    · rintro ⟨a, ha, -⟩
      by_cases h5 : d < 5
      · rw [if_pos h5] at ha; exact absurd ha (by simp)
      · by_cases h240 : 240 < d
        · rw [if_neg h5, if_pos h240] at ha; exact absurd ha (by simp)
        · omega
    · rintro ⟨h5, h240⟩
      rw [if_neg (by omega : ¬ d < 5), if_neg (by omega : ¬ 240 < d)]
      exact ⟨_, rfl, rfl⟩
  · intro hdur
    simp only [validateAppointment, hpid, hdid, hst, hdur, Option.getD_none]
    rw [if_neg (by omega : ¬ (30 : Int) < 5), if_neg (by omega : ¬ (240 : Int) < 30)]
    exact ⟨_, rfl, rfl⟩

/-- C4 witness: the boundary value 5 is accepted carrying 5, and an absent
field yields 30. -/
theorem c4_duration_bounds_witness :
    (∃ a, validateAppointment ⟨some "p", some "q", some 0, some 5, none, none⟩ = .ok a ∧
       a.duration_minutes = 5) ∧
    (∃ a, validateAppointment ⟨some "p", some "q", some 0, none, none, none⟩ = .ok a ∧
       a.duration_minutes = 30) :=
  ⟨((c4_duration_bounds ⟨some "p", some "q", some 0, some 5, none, none⟩ rfl rfl rfl).1
      5 rfl).mpr (by norm_num),
   (c4_duration_bounds ⟨some "p", some "q", some 0, none, none, none⟩ rfl rfl rfl).2 rfl⟩

/-! ### Claim C1 (code bug) -/

/-- C1 is contradicted by the code: with a connected empty store and a
well-formed 24-hex `patient_id` matching no patient, the deliberate
`HTTPException(404, "Patient not found")` raised inside the `try` block is
swallowed by the blanket `except Exception: pass` (main.py lines 133-135,
whose comment scopes it to ObjectId conversion failures only), and the
appointment is inserted and returned with the new identifier instead of the
request failing with 404 and persisting nothing. -/
theorem c1_notfound_swallowed :
    tryBody true ⟨[], [], [], 0⟩ "0123456789abcdef01234567" "0123456789abcdef01234567" =
      TryResult.raised (PyExn.httpExn ⟨404, "Patient not found"⟩) ∧
    create_appointment true
        ⟨"0123456789abcdef01234567", "0123456789abcdef01234567", 0, 30, none, "scheduled"⟩
        (some ⟨[], [], [], 0⟩) =
      (.ok (hex24 0),
       some ⟨[], [],
         [[("_id", Value.oid 0),
           ("patient_id", Value.str "0123456789abcdef01234567"),
           ("doctor_id", Value.str "0123456789abcdef01234567"),
           ("start_time", Value.dt 0), ("duration_minutes", Value.int 30),
           ("reason", Value.null), ("status", Value.str "scheduled")]], 1⟩) := by
  exact ⟨by decide, rfl⟩

/-! ### Claim C2 -/

/-- C2: when the patient or doctor reference is not a valid ObjectId string,
the conversion raises inside the `try`, the except swallows it — so the
referential check is skipped (no 404 can be reached) — and the appointment is
inserted and persisted with no error. -/
theorem c2_invalid_reference_inserted (p : Appointment) (d : DB)
    (h : parseObjectId p.patient_id = none ∨ parseObjectId p.doctor_id = none) :
    tryBody true d p.patient_id p.doctor_id = TryResult.raised PyExn.valueErr ∧
    create_appointment true p (some d) =
      (.ok (hex24 d.nextId),
       some { d with
              appointment := d.appointment ++ [("_id", Value.oid d.nextId) :: apptFields p],
              nextId := d.nextId + 1 }) := by
  have htry : tryBody true d p.patient_id p.doctor_id = .raised .valueErr := by
    rcases h with h | h
    · simp [tryBody, h]
    · cases hp : parseObjectId p.patient_id <;> simp [tryBody, hp, h]
  refine ⟨htry, ?_⟩
  simp only [create_appointment, htry]
  rfl

/-- C2 witness: a malformed `patient_id` on a connected empty store — the
request succeeds and the appointment document is persisted. -/
theorem c2_invalid_reference_inserted_witness :
    parseObjectId "not-an-objectid" = none ∧
    create_appointment true ⟨"not-an-objectid", "x", 1, 45, some "checkup", "scheduled"⟩
        (some ⟨[], [], [], 0⟩) =
      (.ok (hex24 0),
       some ⟨[], [],
         [[("_id", Value.oid 0), ("patient_id", Value.str "not-an-objectid"),
           ("doctor_id", Value.str "x"), ("start_time", Value.dt 1),
           ("duration_minutes", Value.int 45), ("reason", Value.str "checkup"),
           ("status", Value.str "scheduled")]], 1⟩) :=
  ⟨by decide,
   ((c2_invalid_reference_inserted ⟨"not-an-objectid", "x", 1, 45, some "checkup", "scheduled"⟩
       ⟨[], [], [], 0⟩ (Or.inl (by decide))).2).trans rfl⟩

/-! ### Claim C9 -/

/-- C9: when the bson import failed (`ObjectId` is `None`), both existence
flags are the constant `True`: the lookups never run, the `try` body completes
without any 404, and — given a connected store — every appointment payload is
inserted and its identifier returned. -/
theorem c9_no_objectid_always_inserts (p : Appointment) (d : DB) :
    tryBody false d p.patient_id p.doctor_id = TryResult.completed ∧
    create_appointment false p (some d) =
      (.ok (hex24 d.nextId),
       some { d with
              appointment := d.appointment ++ [("_id", Value.oid d.nextId) :: apptFields p],
              nextId := d.nextId + 1 }) :=
  ⟨rfl, rfl⟩

/-! ### Claim C7 -/

theorem validateDoctor_missing (i : DoctorInput)
    (h : i.first_name = none ∨ i.last_name = none ∨ i.department = none) :
    ∃ e, validateDoctor i = .error e := by
  cases hfn : i.first_name <;> cases hln : i.last_name <;> cases hdep : i.department <;>
    simp_all [validateDoctor]

theorem validatePatient_missing (i : PatientInput)
    (h : i.first_name = none ∨ i.last_name = none) :
    ∃ e, validatePatient i = .error e := by
  cases hfn : i.first_name <;> cases hln : i.last_name <;> simp_all [validatePatient]

theorem validateAppointment_missing (i : AppointmentInput)
    (h : i.patient_id = none ∨ i.doctor_id = none ∨ i.start_time = none) :
    ∃ e, validateAppointment i = .error e := by
  cases hp : i.patient_id <;> cases hd : i.doctor_id <;> cases hs : i.start_time <;>
    simp_all [validateAppointment]

/-- C7: a POST body missing a required field of its schema is rejected by the
pre-handler validation with a 422 client error, the handler (hence the insert)
is never invoked, and the store state — every collection's contents and
counts — is unchanged. -/
theorem c7_missing_required_rejected (di : DoctorInput) (pi : PatientInput)
    (ai : AppointmentInput) (db : Option DB) (oidAvail : Bool) :
    ((di.first_name = none ∨ di.last_name = none ∨ di.department = none) →
      ∃ e, post_doctor di db = (.error ⟨422, e⟩, db)) ∧
    ((pi.first_name = none ∨ pi.last_name = none) →
      ∃ e, post_patient pi db = (.error ⟨422, e⟩, db)) ∧
    ((ai.patient_id = none ∨ ai.doctor_id = none ∨ ai.start_time = none) →
      ∃ e, post_appointment oidAvail ai db = (.error ⟨422, e⟩, db)) := by
  refine ⟨fun h => ?_, fun h => ?_, fun h => ?_⟩
  · obtain ⟨e, he⟩ := validateDoctor_missing di h
    exact ⟨e, by simp [post_doctor, he]⟩
  · obtain ⟨e, he⟩ := validatePatient_missing pi h
    exact ⟨e, by simp [post_patient, he]⟩
  · obtain ⟨e, he⟩ := validateAppointment_missing ai h
    exact ⟨e, by simp [post_appointment, he]⟩

/-- C7 witness: a Doctor body without `department`, a Patient body without
`first_name` and an Appointment body without `doctor_id`, each against a
connected empty store — all three rejected with 422 and the store untouched. -/
theorem c7_missing_required_rejected_witness :
    (∃ e, post_doctor ⟨some "a", some "b", none, none, none, none⟩ (some ⟨[], [], [], 0⟩) =
       (.error ⟨422, e⟩, some ⟨[], [], [], 0⟩)) ∧
    (∃ e, post_patient ⟨none, some "b", none, none, none, none, none, none, none, none⟩
        (some ⟨[], [], [], 0⟩) = (.error ⟨422, e⟩, some ⟨[], [], [], 0⟩)) ∧
    (∃ e, post_appointment true ⟨some "p", none, some 0, none, none, none⟩
        (some ⟨[], [], [], 0⟩) = (.error ⟨422, e⟩, some ⟨[], [], [], 0⟩)) :=
  ⟨(c7_missing_required_rejected ⟨some "a", some "b", none, none, none, none⟩
      ⟨none, some "b", none, none, none, none, none, none, none, none⟩
      ⟨some "p", none, some 0, none, none, none⟩ (some ⟨[], [], [], 0⟩) true).1
      (Or.inr (Or.inr rfl)),
   (c7_missing_required_rejected ⟨some "a", some "b", none, none, none, none⟩
      ⟨none, some "b", none, none, none, none, none, none, none, none⟩
      ⟨some "p", none, some 0, none, none, none⟩ (some ⟨[], [], [], 0⟩) true).2.1
      (Or.inl rfl),
   (c7_missing_required_rejected ⟨some "a", some "b", none, none, none, none⟩
      ⟨none, some "b", none, none, none, none, none, none, none, none⟩
      ⟨some "p", none, some 0, none, none, none⟩ (some ⟨[], [], [], 0⟩) true).2.2
      (Or.inr (Or.inl rfl))⟩

/-! ### Claim C8 -/

theorem isDt_optVal (o : Option String) : isDt (optVal o) = false := by
  cases o <;> rfl

theorem keys_patientFields (p : Patient) : keys (patientFields p) =
    ["first_name", "last_name", "email", "phone", "date_of_birth", "gender",
     "address", "insurance_provider", "insurance_number", "notes"] :=
  rfl

theorem keys_doctorFields (q : Doctor) : keys (doctorFields q) =
    ["first_name", "last_name", "email", "phone", "department", "title"] :=
  rfl

theorem patientFields_not_dt (p : Patient) :
    ∀ kv ∈ patientFields p, isDt kv.2 = false := by
  intro kv hkv
  simp only [patientFields, List.mem_cons, List.not_mem_nil, or_false] at hkv
  rcases hkv with h|h|h|h|h|h|h|h|h|h <;> subst h <;>
    first | rfl | exact isDt_optVal _

theorem doctorFields_not_dt (q : Doctor) :
    ∀ kv ∈ doctorFields q, isDt kv.2 = false := by
  intro kv hkv
  simp only [doctorFields, List.mem_cons, List.not_mem_nil, or_false] at hkv
  rcases hkv with h|h|h|h|h|h <;> subst h <;>
    first | rfl | exact isDt_optVal _

/-- The stored form of a freshly inserted patient serializes to the payload's
fields preceded by the single added `id` entry. -/
theorem serialize_patient_doc (p : Patient) (m : Nat) :
    serialize_doc (("_id", Value.oid m) :: patientFields p) =
      ("id", Value.str (hex24 m)) :: patientFields p := by
  have hk : keys (("_id", Value.oid m) :: patientFields p) =
      "_id" :: keys (patientFields p) := rfl
  have h1 : (keys (("_id", Value.oid m) :: patientFields p)).Nodup := by
    rw [hk, keys_patientFields]; decide
  have h2 : "id" ∉ keys (("_id", Value.oid m) :: patientFields p) := by
    rw [hk, keys_patientFields]; decide
  rw [serialize_doc_map h1 h2, List.map_cons,
    map_serMap_of_plain (by rw [keys_patientFields]; decide) (patientFields_not_dt p)]
  rfl

theorem serialize_doctor_doc (q : Doctor) (m : Nat) :
    serialize_doc (("_id", Value.oid m) :: doctorFields q) =
      ("id", Value.str (hex24 m)) :: doctorFields q := by
  have hk : keys (("_id", Value.oid m) :: doctorFields q) =
      "_id" :: keys (doctorFields q) := rfl
  have h1 : (keys (("_id", Value.oid m) :: doctorFields q)).Nodup := by
    rw [hk, keys_doctorFields]; decide
  have h2 : "id" ∉ keys (("_id", Value.oid m) :: doctorFields q) := by
    rw [hk, keys_doctorFields]; decide
  rw [serialize_doc_map h1 h2, List.map_cons,
    map_serMap_of_plain (by rw [keys_doctorFields]; decide) (doctorFields_not_dt q)]
  rfl

theorem take_eq_self {α : Type} {l : List α} {n : Nat} (h : l.length ≤ n) :
    l.take n = l :=
  List.take_of_length_le h

theorem collOf_patient (d : DB) : collOf d "patient" = d.patient := rfl

theorem collOf_doctor (d : DB) : collOf d "doctor" = d.doctor := rfl

/-- C8: POST then GET round-trips a valid Patient or Doctor payload — given
room inside the list limit, the listing after the insert is the listing
before it extended by exactly one record carrying the payload's fields
unchanged plus the single added `id`, the string form of the store-generated
identifier. -/
theorem c8_post_then_get_roundtrip (p : Patient) (q : Doctor) (d : DB) (n : Nat)
    (hp : d.patient.length < n) (hq : d.doctor.length < n) :
    (∃ pid d2, create_patient p (some d) = (.ok pid, some d2) ∧
       list_patients n d2 = list_patients n d ++ [("id", Value.str pid) :: patientFields p]) ∧
    (∃ qid d2, create_doctor q (some d) = (.ok qid, some d2) ∧
       list_doctors n d2 = list_doctors n d ++ [("id", Value.str qid) :: doctorFields q]) := by
  constructor
  · refine ⟨hex24 d.nextId,
      { d with patient := d.patient ++ [("_id", Value.oid d.nextId) :: patientFields p],
               nextId := d.nextId + 1 }, rfl, ?_⟩
    have h1 : d.patient.length ≤ n := Nat.le_of_lt hp
    have h2 : (d.patient ++ [("_id", Value.oid d.nextId) :: patientFields p]).length ≤ n := by
      rw [List.length_append]; simpa using hp
    simp only [list_patients, get_documents, collOf_patient]
    rw [take_eq_self h1, take_eq_self h2, List.map_append, List.map_singleton,
      serialize_patient_doc]
  · refine ⟨hex24 d.nextId,
      { d with doctor := d.doctor ++ [("_id", Value.oid d.nextId) :: doctorFields q],
               nextId := d.nextId + 1 }, rfl, ?_⟩
    have h1 : d.doctor.length ≤ n := Nat.le_of_lt hq
    have h2 : (d.doctor ++ [("_id", Value.oid d.nextId) :: doctorFields q]).length ≤ n := by
      rw [List.length_append]; simpa using hq
    simp only [list_doctors, get_documents, collOf_doctor]
    rw [take_eq_self h1, take_eq_self h2, List.map_append, List.map_singleton,
      serialize_doctor_doc]

/-- C8 witness: one concrete patient and one concrete doctor inserted into a
connected empty store and listed back with the default limit 100. -/
theorem c8_post_then_get_roundtrip_witness :
    ((⟨[], [], [], 0⟩ : DB).patient.length < 100) ∧
    ((⟨[], [], [], 0⟩ : DB).doctor.length < 100) ∧
    (∃ pid d2, create_patient ⟨"Ann", "Lee", some "ann@x.org", none, none, none, none,
          none, none, none⟩ (some ⟨[], [], [], 0⟩) = (.ok pid, some d2) ∧
       list_patients 100 d2 = list_patients 100 ⟨[], [], [], 0⟩ ++
         [("id", Value.str pid) :: patientFields ⟨"Ann", "Lee", some "ann@x.org", none, none,
            none, none, none, none, none⟩]) ∧
    (∃ qid d2, create_doctor ⟨"Bo", "Kim", none, none, "cardiology", some "MD"⟩
          (some ⟨[], [], [], 0⟩) = (.ok qid, some d2) ∧
       list_doctors 100 d2 = list_doctors 100 ⟨[], [], [], 0⟩ ++
         [("id", Value.str qid) :: doctorFields ⟨"Bo", "Kim", none, none, "cardiology", some "MD"⟩]) :=
  ⟨by decide, by decide,
   (c8_post_then_get_roundtrip ⟨"Ann", "Lee", some "ann@x.org", none, none, none, none,
      none, none, none⟩ ⟨"Bo", "Kim", none, none, "cardiology", some "MD"⟩
      ⟨[], [], [], 0⟩ 100 (by decide) (by decide)).1,
   (c8_post_then_get_roundtrip ⟨"Ann", "Lee", some "ann@x.org", none, none, none, none,
      none, none, none⟩ ⟨"Bo", "Kim", none, none, "cardiology", some "MD"⟩
      ⟨[], [], [], 0⟩ 100 (by decide) (by decide)).2⟩

end Hospital
